import Mathlib

/-!
Verification development for the drill-down/filter navigator of the
Smart-Acquisition dashboard.

The embedding below mirrors two source components:

* the tier-1/2/3 supplier drill-down navigation of
  `src/modules/smart_performance.py` (session keys `network_view_tier`,
  `network_selected_tier1`, `network_selected_tier2`, the hard-coded
  `supplier_hierarchy` and `tier3_data` dictionaries, the click handlers
  and the back/reset buttons), and
* the cross-chart filter of `src/utils/chart_filtering.py`
  (`apply_cross_chart_filter` and `get_filtered_summary_stats`).

Python dictionaries become association lists (preserving insertion order,
which the source relies on for stable layout), Python `None`-able session
values become `Option`, Python truthiness is modelled explicitly, and
numeric cell values become rationals.
-/

/-- Risk categories used throughout the supplier hierarchy
(`'Low' | 'Medium' | 'High' | 'Critical'` in the source). -/
inductive Risk where
  | low
  | medium
  | high
  | critical
deriving DecidableEq

/-- Attributes of one hierarchy node: the `{'risk': …, 'value': …, 'issues': …}`
dictionaries of `supplier_hierarchy` and `tier3_data`. -/
structure NodeData where
  risk : Risk
  value : ℚ
  issues : Nat
deriving DecidableEq

/-- A tier-1 entry of `supplier_hierarchy`: its own attributes plus the
ordered `tier2` children dictionary. -/
structure Tier1Data where
  risk : Risk
  value : ℚ
  issues : Nat
  tier2 : List (String × NodeData)
deriving DecidableEq

/-- The hard-coded `supplier_hierarchy` dictionary of
`src/modules/smart_performance.py` (lines 239-280), in definition order. -/
def supplier_hierarchy : List (String × Tier1Data) :=
  [ ("MACE Group",
      { risk := .low, value := 421.5, issues := 0,
        tier2 :=
          [ ("Thames Valley Infrastructure", { risk := .low, value := 156.2, issues := 0 }),
            ("London Pipeline Alliance", { risk := .low, value := 127.3, issues := 0 }),
            ("Water Quality Solutions", { risk := .low, value := 138.0, issues := 0 }) ] }),
    ("Balfour Beatty Water",
      { risk := .critical, value := 163.0, issues := 5,
        tier2 :=
          [ ("Thames Drainage Specialists", { risk := .critical, value := 89.5, issues := 3 }),
            ("Environmental Compliance", { risk := .high, value := 73.5, issues := 2 }),
            ("Network Operations", { risk := .medium, value := 0, issues := 0 }) ] }),
    ("Costain Water Alliance",
      { risk := .medium, value := 324.3, issues := 2,
        tier2 :=
          [ ("TTT Integration Works", { risk := .medium, value := 289.7, issues := 1 }),
            ("Biodiversity Enhancement", { risk := .low, value := 34.6, issues := 0 }),
            ("Strategic Projects", { risk := .medium, value := 0, issues := 1 }) ] }),
    ("Jacobs Engineering",
      { risk := .low, value := 137.4, issues := 0,
        tier2 :=
          [ ("Smart Network Technologies", { risk := .low, value := 95.4, issues := 0 }),
            ("Customer Excellence", { risk := .low, value := 42.0, issues := 0 }),
            ("Innovation Delivery", { risk := .low, value := 0, issues := 0 }) ] }),
    ("Atkins (SNC-Lavalin)",
      { risk := .low, value := 68.9, issues := 0,
        tier2 :=
          [ ("Water Quality Assurance", { risk := .low, value := 68.9, issues := 0 }),
            ("Regulatory Compliance", { risk := .low, value := 0, issues := 0 }),
            ("Technical Advisory", { risk := .low, value := 0, issues := 0 }) ] }) ]

/-- The hard-coded `tier3_data` dictionary of
`src/modules/smart_performance.py` (lines 283-368): tier-2 supplier name to
its tier-3 sub-contractor dictionary. -/
def tier3_data : List (String × List (String × NodeData)) :=
  [ ("Pipeline Solutions Ltd",
      [ ("Advanced Pipe Technologies", { risk := .low, value := 315, issues := 0 }),
        ("Trenchless Solutions UK", { risk := .low, value := 320, issues := 0 }),
        ("Water Main Specialists", { risk := .low, value := 315, issues := 0 }) ]),
    ("Infrastructure Services",
      [ ("Build Pro Services", { risk := .medium, value := 195, issues := 1 }),
        ("Infrastructure Plus", { risk := .low, value := 190, issues := 0 }),
        ("Service Contractors", { risk := .medium, value := 195, issues := 1 }) ]),
    ("Construction Support",
      [ ("Support Systems Ltd", { risk := .low, value := 215, issues := 0 }),
        ("Construction Aids", { risk := .low, value := 220, issues := 0 }),
        ("Build Support Co", { risk := .low, value := 215, issues := 0 }) ]),
    ("Civil Engineering",
      [ ("Engineering Sub 1", { risk := .high, value := 135, issues := 2 }),
        ("Engineering Sub 2", { risk := .medium, value := 130, issues := 1 }),
        ("Engineering Sub 3", { risk := .high, value := 135, issues := 2 }) ]),
    ("Project Services",
      [ ("Project Management Co", { risk := .medium, value := 140, issues := 1 }),
        ("Service Delivery Ltd", { risk := .low, value := 140, issues := 0 }),
        ("Project Support", { risk := .medium, value := 140, issues := 1 }) ]),
    ("Infrastructure Delivery",
      [ ("Delivery Systems", { risk := .low, value := 125, issues := 0 }),
        ("Infrastructure Co", { risk := .low, value := 130, issues := 0 }),
        ("Delivery Partners", { risk := .low, value := 125, issues := 0 }) ]),
    ("Water Infrastructure",
      [ ("Water Systems Ltd", { risk := .low, value := 105, issues := 0 }),
        ("Hydro Solutions", { risk := .low, value := 110, issues := 0 }),
        ("Infrastructure Water", { risk := .low, value := 105, issues := 0 }) ]),
    ("Construction Management",
      [ ("Management Systems", { risk := .low, value := 105, issues := 0 }),
        ("Construction Control", { risk := .low, value := 105, issues := 0 }),
        ("Build Management", { risk := .low, value := 105, issues := 0 }) ]),
    ("Engineering Services",
      [ ("Engineering Plus", { risk := .medium, value := 105, issues := 1 }),
        ("Service Engineers", { risk := .low, value := 105, issues := 0 }),
        ("Technical Services", { risk := .medium, value := 105, issues := 1 }) ]),
    ("Nordic Construction",
      [ ("Supplier 2.1", { risk := .high, value := 95, issues := 2 }),
        ("Supplier 2.2", { risk := .medium, value := 90, issues := 1 }),
        ("Supplier 2.3", { risk := .critical, value := 95, issues := 3 }) ]),
    ("Civil Works",
      [ ("Civil Contractors", { risk := .medium, value := 85, issues := 1 }),
        ("Works Management", { risk := .low, value := 90, issues := 0 }),
        ("Civil Solutions", { risk := .medium, value := 85, issues := 1 }) ]),
    ("Project Delivery",
      [ ("Delivery Experts", { risk := .low, value := 85, issues := 0 }),
        ("Project Solutions", { risk := .low, value := 90, issues := 0 }),
        ("Delivery Systems", { risk := .low, value := 85, issues := 0 }) ]),
    ("Infrastructure Solutions",
      [ ("Solution Providers", { risk := .medium, value := 65, issues := 1 }),
        ("Infrastructure Tech", { risk := .low, value := 70, issues := 0 }),
        ("Solutions Ltd", { risk := .medium, value := 65, issues := 1 }) ]),
    ("Construction Services",
      [ ("Service Providers", { risk := .medium, value := 65, issues := 1 }),
        ("Construction Plus", { risk := .low, value := 70, issues := 0 }),
        ("Building Services", { risk := .medium, value := 65, issues := 1 }) ]),
    ("Engineering Partners",
      [ ("Partner Engineers", { risk := .low, value := 65, issues := 0 }),
        ("Engineering Alliance", { risk := .low, value := 70, issues := 0 }),
        ("Technical Partners", { risk := .low, value := 65, issues := 0 }) ]) ]

/-- Navigation state: the session keys `network_view_tier`,
`network_selected_tier1`, `network_selected_tier2` of
`src/modules/smart_performance.py` (lines 231-236). -/
structure NavState where
  network_view_tier : Nat
  network_selected_tier1 : Option String
  network_selected_tier2 : Option String
deriving DecidableEq

/-- Initial navigation state created at session start (tier 1, no selection). -/
def initialNavState : NavState := ⟨1, none, none⟩

/-- Outcome signalled by a drill-down attempt: the state moved, the node id
was invalid for the current tier (source: the click handler silently does
nothing), or the node is valid but has no tier-3 subtree (source: the
`st.info` message branch, lines 699-701). -/
inductive DrillResult where
  | moved
  | invalidSelection
  | noDeeperData
deriving DecidableEq

/-- Python truthiness of an optional session string: `None` and the empty
string are falsy. -/
def optStrTruthy : Option String → Bool
  | none => false
  | some s => !(s == "")

/-- Names of the tier-1 suppliers (the keys of `supplier_hierarchy`). -/
def tier1Names : List String := supplier_hierarchy.map (·.1)

/-- Tier-2 children dictionary of a tier-1 supplier
(`supplier_hierarchy[tier1_supplier]['tier2']` in the source). A missing
tier-1 key would raise `KeyError` in Python; that lookup is only ever
performed with a key taken from `supplier_hierarchy`, so we return the
empty child list in that unreachable case. -/
def tier2Children (p : String) : List (String × NodeData) :=
  ((supplier_hierarchy.lookup p).map Tier1Data.tier2).getD []

/-- Drill-down transition, combining the tier-1 click handler
(`smart_performance.py` lines 685-688, also the tier-1 buttons at 479-482)
and the tier-2 click handler (lines 691-701, also the tier-2 buttons at
560-563): from tier 1 a node existing in `supplier_hierarchy` moves to
tier 2; from tier 2 a child of the selected tier-1 supplier moves to tier 3
when `tier3_data` has an entry for it and is otherwise rejected with an
informational message; every other click leaves the state unchanged. -/
def drillDown (s : NavState) (n : String) : NavState × DrillResult :=
  if s.network_view_tier = 1 then
    if (supplier_hierarchy.lookup n).isSome then
      ({ s with network_view_tier := 2, network_selected_tier1 := some n }, .moved)
    else (s, .invalidSelection)
  else if s.network_view_tier = 2 ∧ optStrTruthy s.network_selected_tier1 = true then
    if ((tier2Children (s.network_selected_tier1.getD "")).lookup n).isSome then
      if (tier3_data.lookup n).isSome then
        ({ s with network_view_tier := 3, network_selected_tier2 := some n }, .moved)
      else (s, .noDeeperData)
    else (s, .invalidSelection)
  else (s, .invalidSelection)

/-- Back-navigation: the `← Back to Previous Tier` button
(`smart_performance.py` lines 382-390). The button is only rendered above
tier 1, and its handler only acts at tiers 3 and 2. -/
def goBack (s : NavState) : NavState :=
  if s.network_view_tier = 3 then
    { s with network_view_tier := 2, network_selected_tier2 := none }
  else if s.network_view_tier = 2 then
    { s with network_view_tier := 1, network_selected_tier1 := none }
  else s

/-- Reset: the `Reset to Tier 1` button (`smart_performance.py`
lines 402-406) unconditionally restores tier 1 with no selections. -/
def resetNav (_ : NavState) : NavState := ⟨1, none, none⟩

/-- One user interaction on the navigator. -/
inductive NavAction where
  | drill (n : String)
  | back
  | reset

/-- Effect of one interaction on the navigation state. -/
def navStep (s : NavState) : NavAction → NavState
  | .drill n => (drillDown s n).1
  | .back => goBack s
  | .reset => resetNav s

/-- States reachable from the initial navigation state by any finite
sequence of interactions. -/
inductive Reachable : NavState → Prop
  | init : Reachable initialNavState
  | step {s : NavState} (hs : Reachable s) (a : NavAction) : Reachable (navStep s a)

/-- Navigation invariant of the spec: the tier determines which selections
are set. -/
def NavInvariant (s : NavState) : Prop :=
  (s.network_view_tier = 1 →
    s.network_selected_tier1 = none ∧ s.network_selected_tier2 = none) ∧
  (s.network_view_tier = 2 →
    s.network_selected_tier1 ≠ none ∧ s.network_selected_tier2 = none) ∧
  (s.network_view_tier = 3 →
    s.network_selected_tier1 ≠ none ∧ s.network_selected_tier2 ≠ none)

/-- View payload at tier 2: the tier-2 nodes of the selected tier-1
supplier, in dictionary definition order (the source iterates
`tier2_suppliers` in insertion order). -/
def tier2View (p : String) : List (String × NodeData) := tier2Children p

/-- Total issues over a visible node set
(`sum(data['issues'] for data in tier2_suppliers.values())`,
`smart_performance.py` line 835). -/
def issueTotal (view : List (String × NodeData)) : Nat :=
  (view.map (fun x => x.2.issues)).sum

/-- Count of visible nodes with risk High or Critical
(`sum(1 for data in tier2_suppliers.values() if data['risk'] in
['High', 'Critical'])`, `smart_performance.py` line 832). -/
def highRiskCount (view : List (String × NodeData)) : Nat :=
  (view.filter (fun x => decide (x.2.risk = .high ∨ x.2.risk = .critical))).length

/-- Scalar cell value of a tabular record: a string or a number
(numbers modelled as rationals). -/
inductive Value where
  | str (s : String)
  | num (q : ℚ)
deriving DecidableEq

/-- Python truthiness of a cell value: the empty string and the number 0
are falsy. -/
def Value.truthy : Value → Bool
  | .str s => !(s == "")
  | .num q => !(q == 0)

/-- Python truthiness of an optional filter value (`not filter_value`
in the source guard): `None` or a falsy scalar. -/
def optValTruthy : Option Value → Bool
  | none => false
  | some v => v.truthy

/-- A dataframe: its column names and its rows, each row an ordered
association of column name to cell value. -/
structure DataFrame where
  cols : List String
  rows : List (List (String × Value))
deriving DecidableEq

/-- Keep only the rows whose cell in column `c` equals the filter value
(`filtered_df[filtered_df[c] == filter_value]` in the source; a row whose
cell is missing compares unequal, as NaN does in pandas — and the guard
ensures the filter value is never `none` when this runs). -/
def filterRows (df : DataFrame) (c : String) (v : Option Value) : DataFrame :=
  { df with rows := df.rows.filter (fun r => decide (r.lookup c = v)) }

/-- The seven dimensions recognized by `apply_cross_chart_filter`. -/
def recognizedDims : List String :=
  ["rag_status", "procurement_category", "supplier", "risk_level",
   "current_stage", "team_member", "market_segment"]

/-- Embedding of `apply_cross_chart_filter` (`src/utils/chart_filtering.py`
lines 6-28). The session flag `filter_active` is passed explicitly. The
first guard returns the input unchanged when the flag is off or either
argument is falsy; otherwise each recognized dimension present among the
dataframe's columns filters the rows on equality, and anything else falls
through to the unchanged copy. -/
def apply_cross_chart_filter (filter_active : Bool) (filter_type : Option String)
    (filter_value : Option Value) (df : DataFrame) : DataFrame :=
  if !filter_active || !optStrTruthy filter_type || !optValTruthy filter_value then df
  else if filter_type = some "rag_status" ∧ "rag_status" ∈ df.cols then
    filterRows df "rag_status" filter_value
  else if filter_type = some "procurement_category" ∧ "procurement_category" ∈ df.cols then
    filterRows df "procurement_category" filter_value
  else if filter_type = some "supplier" ∧ "supplier" ∈ df.cols then
    filterRows df "supplier" filter_value
  else if filter_type = some "risk_level" ∧ "risk_level" ∈ df.cols then
    filterRows df "risk_level" filter_value
  else if filter_type = some "current_stage" ∧ "current_stage" ∈ df.cols then
    filterRows df "current_stage" filter_value
  else if filter_type = some "team_member" ∧ "team_member" ∈ df.cols then
    filterRows df "team_member" filter_value
  else if filter_type = some "market_segment" ∧ "market_segment" ∈ df.cols then
    filterRows df "market_segment" filter_value
  else df

/-- Sum of the numeric cells of column `c` over a row list
(`df[c].sum()` in pandas: missing or non-numeric cells contribute
nothing, as NaN entries are skipped). -/
def sumColumn (c : String) (rows : List (List (String × Value))) : ℚ :=
  rows.foldr
    (fun r acc =>
      match r.lookup c with
      | some (Value.num q) => q + acc
      | _ => acc)
    0

/-- Result record of `get_filtered_summary_stats`: the dictionary
`{'contracts': …, 'value_m': …, 'filtered': …}`. -/
structure SummaryStats where
  contracts : Nat
  value_m : ℚ
  filtered : Bool
deriving DecidableEq

/-- Embedding of `get_filtered_summary_stats` (`src/utils/chart_filtering.py`
lines 217-240), with the session filter state passed explicitly. When the
filter is active the statistics are computed over the filtered dataframe,
otherwise over the full one; the monetary total divides the
`total_value_gbp` column sum by 1,000,000 and is 0 when that column is
absent. -/
def get_filtered_summary_stats (filter_active : Bool) (filter_type : Option String)
    (filter_value : Option Value) (df : DataFrame) : SummaryStats :=
  if filter_active then
    let filtered_df := apply_cross_chart_filter filter_active filter_type filter_value df
    { contracts := filtered_df.rows.length,
      value_m :=
        if "total_value_gbp" ∈ filtered_df.cols then
          sumColumn "total_value_gbp" filtered_df.rows / 1000000
        else 0,
      filtered := true }
  else
    { contracts := df.rows.length,
      value_m :=
        if "total_value_gbp" ∈ df.cols then
          sumColumn "total_value_gbp" df.rows / 1000000
        else 0,
      filtered := false }

/-- The view `get_filtered_summary_stats` aggregates over: the filtered
dataframe when the filter is active, the full dataframe otherwise. -/
def activeView (filter_active : Bool) (filter_type : Option String)
    (filter_value : Option Value) (df : DataFrame) : DataFrame :=
  if filter_active then apply_cross_chart_filter filter_active filter_type filter_value df
  else df

instance (s : NavState) : Decidable (NavInvariant s) := by
  unfold NavInvariant
  infer_instance

/-- Initial navigation state satisfies the navigation invariant. -/
lemma navInvariant_initial : NavInvariant initialNavState := by decide

/-- Every single interaction preserves the navigation invariant, including
rejected drill-downs. -/
lemma navInvariant_step (s : NavState) (a : NavAction) (h : NavInvariant s) :
    NavInvariant (navStep s a) := by
  obtain ⟨h1, h2, h3⟩ := h
  cases a with
  | drill n =>
      show NavInvariant (drillDown s n).1
      unfold drillDown
      split_ifs with ht1 hlk ht2 hlk2 ht3
      · exact ⟨fun hc => by simp at hc,
          fun _ => ⟨by simp, (h1 ht1).2⟩,
          fun hc => by simp at hc⟩
      · exact ⟨h1, h2, h3⟩
      · exact ⟨fun hc => by simp at hc,
          fun hc => by simp at hc,
          fun _ => ⟨(h2 ht2.1).1, by simp⟩⟩
      · exact ⟨h1, h2, h3⟩
      · exact ⟨h1, h2, h3⟩
      · exact ⟨h1, h2, h3⟩
  | back =>
      show NavInvariant (goBack s)
      unfold goBack
      split_ifs with h3t h2t
      · exact ⟨fun hc => by simp at hc,
          fun _ => ⟨(h3 h3t).1, rfl⟩,
          fun hc => by simp at hc⟩
      · exact ⟨fun _ => ⟨rfl, (h2 h2t).2⟩,
          fun hc => by simp at hc,
          fun hc => by simp at hc⟩
      · exact ⟨h1, h2, h3⟩
  | reset => exact navInvariant_initial

/-- Every reachable navigation state satisfies the navigation invariant. -/
lemma reachable_navInvariant {s : NavState} (h : Reachable s) : NavInvariant s := by
  induction h with
  | init => exact navInvariant_initial
  | step hs a ih => exact navInvariant_step _ a ih

/-- C2: every navigation transition (drill-down with any node id, back,
reset) applied to any reachable navigation state yields a state that still
satisfies the navigation invariant — tier 1 has no selections, tier 2 has
only a tier-1 selection, tier 3 has both — including when the transition is
rejected. -/
theorem c2_transitions_preserve_invariant (s : NavState) (h : Reachable s)
    (a : NavAction) : NavInvariant (navStep s a) :=
  navInvariant_step s a (reachable_navInvariant h)

/-- Witness for C2 at a concrete reachable state and transition. -/
theorem c2_transitions_preserve_invariant_witness :
    NavInvariant (navStep initialNavState (NavAction.drill "Balfour Beatty Water")) :=
  c2_transitions_preserve_invariant initialNavState Reachable.init
    (NavAction.drill "Balfour Beatty Water")

/-- C3: for every node id among the tier-1 nodes, drilling down from the
Tier-1 state and immediately going back returns the navigator to the
Tier-1 state with no selection. -/
theorem c3_drill_then_back_roundtrip (n : String) (h : n ∈ tier1Names) :
    goBack (drillDown initialNavState n).1 = initialNavState := by
  have hlk : (supplier_hierarchy.lookup n).isSome = true := by
    simp only [tier1Names, supplier_hierarchy, List.map, List.mem_cons,
      List.not_mem_nil, or_false] at h
    rcases h with rfl | rfl | rfl | rfl | rfl <;> decide
  simp [drillDown, goBack, initialNavState, hlk]

/-- Witness for C3 at a concrete tier-1 node id. -/
theorem c3_drill_then_back_roundtrip_witness :
    "Balfour Beatty Water" ∈ tier1Names ∧
      goBack (drillDown initialNavState "Balfour Beatty Water").1 = initialNavState :=
  ⟨by decide, c3_drill_then_back_roundtrip "Balfour Beatty Water" (by decide)⟩

/-- C4: resetting from any reachable navigation state produces exactly the
initial state, regardless of prior history. -/
theorem c4_reset_returns_initial (s : NavState) (_h : Reachable s) :
    resetNav s = initialNavState := rfl

/-- Witness for C4 at a concrete reachable state. -/
theorem c4_reset_returns_initial_witness :
    resetNav (navStep initialNavState (NavAction.drill "MACE Group")) = initialNavState :=
  c4_reset_returns_initial (navStep initialNavState (NavAction.drill "MACE Group"))
    (Reachable.step Reachable.init (NavAction.drill "MACE Group"))

/-- C1 counterexample: in the tier-2 view under `Balfour Beatty Water` the
count of nodes with risk High or Critical is 2 (`Thames Drainage
Specialists` is Critical and `Environmental Compliance` is High), not 1 as
claimed. -/
theorem c1_counterexample_high_risk_count :
    highRiskCount (tier2View "Balfour Beatty Water") = 2 ∧
      ¬ highRiskCount (tier2View "Balfour Beatty Water") = 1 := by decide

/-- C1 (amended): from the Tier-1 state, drilling into `Balfour Beatty
Water` moves to tier 2 with that parent selected; the tier-2 view has
exactly 3 nodes, total issues 5 and high-risk count 2; a subsequent
drill-down on `Network Operations` is rejected as no-deeper-data and the
state is unchanged. -/
theorem c1_balfour_drilldown_scenario :
    drillDown initialNavState "Balfour Beatty Water" =
      (⟨2, some "Balfour Beatty Water", none⟩, DrillResult.moved) ∧
    (tier2View "Balfour Beatty Water").length = 3 ∧
    issueTotal (tier2View "Balfour Beatty Water") = 5 ∧
    highRiskCount (tier2View "Balfour Beatty Water") = 2 ∧
    drillDown ⟨2, some "Balfour Beatty Water", none⟩ "Network Operations" =
      (⟨2, some "Balfour Beatty Water", none⟩, DrillResult.noDeeperData) := by decide

/-- Filtering never changes the column set. -/
lemma filterRows_cols (df : DataFrame) (c : String) (v : Option Value) :
    (filterRows df c v).cols = df.cols := rfl

/-- Every row surviving `filterRows` came from the input and carries the
filter value in the filter column. -/
lemma filterRows_mem {df : DataFrame} {c : String} {v : Option Value}
    {r : List (String × Value)} (hr : r ∈ (filterRows df c v).rows) :
    r ∈ df.rows ∧ r.lookup c = v := by
  have h := List.mem_filter.mp hr
  exact ⟨h.1, of_decide_eq_true h.2⟩

/-- Filtering cannot increase the number of rows. -/
lemma filterRows_length_le (df : DataFrame) (c : String) (v : Option Value) :
    (filterRows df c v).rows.length ≤ df.rows.length :=
  List.length_filter_le _ _

/-- Filtering on the same column and value twice equals filtering once. -/
lemma filterRows_idem (df : DataFrame) (c : String) (v : Option Value) :
    filterRows (filterRows df c v) c v = filterRows df c v := by
  simp [filterRows, List.filter_filter]

/-- The cross-chart filter either returns its input unchanged or filters the
rows on a recognized dimension that is one of the input's columns. -/
lemma apply_eq_branches (a : Bool) (ft : Option String) (fv : Option Value)
    (df : DataFrame) :
    apply_cross_chart_filter a ft fv df = df ∨
      (∃ c, ft = some c ∧ c ∈ recognizedDims ∧ c ∈ df.cols ∧
        apply_cross_chart_filter a ft fv df = filterRows df c fv) := by
  unfold apply_cross_chart_filter
  split_ifs with hg h1 h2 h3 h4 h5 h6 h7
  · exact Or.inl rfl
  · exact Or.inr ⟨"rag_status", h1.1, by decide, h1.2, rfl⟩
  · exact Or.inr ⟨"procurement_category", h2.1, by decide, h2.2, rfl⟩
  · exact Or.inr ⟨"supplier", h3.1, by decide, h3.2, rfl⟩
  · exact Or.inr ⟨"risk_level", h4.1, by decide, h4.2, rfl⟩
  · exact Or.inr ⟨"current_stage", h5.1, by decide, h5.2, rfl⟩
  · exact Or.inr ⟨"team_member", h6.1, by decide, h6.2, rfl⟩
  · exact Or.inr ⟨"market_segment", h7.1, by decide, h7.2, rfl⟩
  · exact Or.inl rfl

/-- With the filter active, a truthy value and a recognized dimension among
the columns, the cross-chart filter is exactly a row filter on that
dimension. -/
lemma apply_recognized (d : String) (v : Value) (df : DataFrame)
    (hd : d ∈ recognizedDims) (hc : d ∈ df.cols) (hv : v.truthy = true) :
    apply_cross_chart_filter true (some d) (some v) df = filterRows df d (some v) := by
  fin_cases hd <;>
    simp [apply_cross_chart_filter, optStrTruthy, optValTruthy, hv, hc]

/-- Concrete dataframe whose `risk_level` column contains the empty string
(a falsy but legitimate value) alongside another value. -/
def dfFalsyValue : DataFrame :=
  { cols := ["risk_level"],
    rows := [[("risk_level", Value.str "")], [("risk_level", Value.str "High")]] }

/-- C5 counterexample: with the filter active, the recognized dimension
`risk_level` a column of the dataframe, and the value `""` present in it,
`apply_cross_chart_filter` returns the input unchanged (the falsy-value
guard fires), so not every returned row carries the filter value. -/
theorem c5_counterexample_falsy_value :
    "risk_level" ∈ recognizedDims ∧ "risk_level" ∈ dfFalsyValue.cols ∧
      (∃ r ∈ dfFalsyValue.rows, r.lookup "risk_level" = some (Value.str "")) ∧
      ¬ (∀ r ∈ (apply_cross_chart_filter true (some "risk_level")
            (some (Value.str "")) dfFalsyValue).rows,
          r.lookup "risk_level" = some (Value.str "")) := by decide

/-- C5 (amended): for every dataframe, recognized dimension among its
columns, and truthy value present in it, the active filter returns a subset
of the rows in which every row carries the filter value, and no more rows
than the input. The amendment adds truthiness of the value: a falsy value
(empty string, zero) disables filtering via the guard. -/
theorem c5_recognized_filter_subset (df : DataFrame) (d : String) (v : Value)
    (hd : d ∈ recognizedDims) (hc : d ∈ df.cols) (hv : v.truthy = true)
    (_hpresent : ∃ r ∈ df.rows, r.lookup d = some v) :
    (∀ r ∈ (apply_cross_chart_filter true (some d) (some v) df).rows,
        r ∈ df.rows ∧ r.lookup d = some v) ∧
      (apply_cross_chart_filter true (some d) (some v) df).rows.length ≤
        df.rows.length := by
  rw [apply_recognized d v df hd hc hv]
  exact ⟨fun r hr => filterRows_mem hr, filterRows_length_le df d (some v)⟩

/-- Concrete dataframe with a truthy `risk_level` value present. -/
def dfRisk : DataFrame :=
  { cols := ["risk_level"],
    rows := [[("risk_level", Value.str "High")], [("risk_level", Value.str "Low")]] }

/-- Witness for C5 (amended) at a concrete dataframe, dimension and value. -/
theorem c5_recognized_filter_subset_witness :
    ("risk_level" ∈ recognizedDims ∧ "risk_level" ∈ dfRisk.cols ∧
        (Value.str "High").truthy = true ∧
        (∃ r ∈ dfRisk.rows, r.lookup "risk_level" = some (Value.str "High"))) ∧
      ((∀ r ∈ (apply_cross_chart_filter true (some "risk_level")
            (some (Value.str "High")) dfRisk).rows,
          r ∈ dfRisk.rows ∧ r.lookup "risk_level" = some (Value.str "High")) ∧
        (apply_cross_chart_filter true (some "risk_level")
            (some (Value.str "High")) dfRisk).rows.length ≤ dfRisk.rows.length) :=
  ⟨⟨by decide, by decide, by decide, by decide⟩,
    c5_recognized_filter_subset dfRisk "risk_level" (Value.str "High")
      (by decide) (by decide) (by decide) (by decide)⟩

/-- C6: applying the same cross-chart filter twice gives the same result as
applying it once, for every filter state and dataframe. -/
theorem c6_apply_filter_idempotent (a : Bool) (ft : Option String)
    (fv : Option Value) (df : DataFrame) :
    apply_cross_chart_filter a ft fv (apply_cross_chart_filter a ft fv df) =
      apply_cross_chart_filter a ft fv df := by
  rcases apply_eq_branches a ft fv df with h | ⟨c, hft, _, _, h⟩
  · rw [h]
    exact h
  · rw [h]
    rcases apply_eq_branches a ft fv (filterRows df c fv) with h2 | ⟨c2, hft2, _, _, h2⟩
    · exact h2
    · rw [h2]
      obtain rfl : c2 = c := by
        rw [hft] at hft2
        exact (Option.some.inj hft2).symm
      exact filterRows_idem df c2 fv

/-- C7: a filter on a dimension outside the recognized set, or recognized
but absent from the dataframe's columns, returns the input unchanged — the
filter degrades to a no-op rather than failing (the embedding is a total
function, so no error is possible). -/
theorem c7_unrecognized_dimension_noop (a : Bool) (d : String) (fv : Option Value)
    (df : DataFrame) (h : d ∉ recognizedDims ∨ d ∉ df.cols) :
    apply_cross_chart_filter a (some d) fv df = df := by
  rcases apply_eq_branches a (some d) fv df with h' | ⟨c, hft, hcr, hcc, h'⟩
  · exact h'
  · obtain rfl : d = c := Option.some.inj hft
    rcases h with h | h
    · exact absurd hcr h
    · exact absurd hcc h

/-- Concrete dataframe for the C7 witness. -/
def dfRag : DataFrame :=
  { cols := ["rag_status"], rows := [[("rag_status", Value.str "Red")]] }

/-- Witness for C7 at a concrete unrecognized dimension. -/
theorem c7_unrecognized_dimension_noop_witness :
    (("banana" ∉ recognizedDims ∨ "banana" ∉ dfRag.cols) ∧
      apply_cross_chart_filter true (some "banana") (some (Value.str "Red")) dfRag
        = dfRag) :=
  ⟨by decide,
    c7_unrecognized_dimension_noop true "banana" (some (Value.str "Red")) dfRag
      (by decide)⟩

/-- Concrete dataframe whose `total_value_gbp` column sums to 2,000,000. -/
def dfMoney : DataFrame :=
  { cols := ["total_value_gbp"],
    rows := [[("total_value_gbp", Value.num 2000000)]] }

/-- C8 counterexample: the summary's monetary total is not the sum of the
`total_value_gbp` column — the source divides the sum by 1,000,000
(reporting in millions), so a dataframe summing to 2,000,000 reports 2. -/
theorem c8_counterexample_units :
    sumColumn "total_value_gbp" dfMoney.rows = 2000000 ∧
      (get_filtered_summary_stats false none none dfMoney).value_m = 2 ∧
      (get_filtered_summary_stats false none none dfMoney).value_m ≠
        sumColumn "total_value_gbp" dfMoney.rows := by
  have h1 : sumColumn "total_value_gbp" dfMoney.rows = 2000000 := by
    norm_num [sumColumn, dfMoney, List.lookup]
  have h2 : (get_filtered_summary_stats false none none dfMoney).value_m = 2 := by
    norm_num [get_filtered_summary_stats, dfMoney, sumColumn, List.lookup]
  refine ⟨h1, h2, ?_⟩
  rw [h1, h2]
  norm_num

/-- C8 (amended): the summary statistics are computed over the filtered
view when a filter is active and over the full table otherwise; the row
count is the number of rows of that view and the monetary total is the sum
of the `total_value_gbp` column divided by 1,000,000 (the amendment: the
total is reported in millions, not as the raw sum), 0 when that column is
absent. -/
theorem c8_summary_stats_shape (a : Bool) (ft : Option String) (fv : Option Value)
    (df : DataFrame) :
    (get_filtered_summary_stats a ft fv df).contracts =
        (activeView a ft fv df).rows.length ∧
      (get_filtered_summary_stats a ft fv df).value_m =
        (if "total_value_gbp" ∈ (activeView a ft fv df).cols then
          sumColumn "total_value_gbp" (activeView a ft fv df).rows / 1000000
        else 0) := by
  cases a <;> simp [get_filtered_summary_stats, activeView]

/-- A filter whose value is carried by every row of the dataframe filters
nothing: the cross-chart filter returns the dataframe unchanged. -/
lemma apply_of_forall_lookup (a : Bool) (d : String) (v : Value) (df : DataFrame)
    (h : ∀ r ∈ df.rows, r.lookup d = some v) :
    apply_cross_chart_filter a (some d) (some v) df = df := by
  rcases apply_eq_branches a (some d) (some v) df with h' | ⟨c, hft, _, _, h'⟩
  · exact h'
  · obtain rfl : d = c := Option.some.inj hft
    rw [h']
    unfold filterRows
    rw [List.filter_eq_self.mpr (fun r hr => decide_eq_true (h r hr))]

/-- C9: the summary statistics with no active filter have the same row
count and monetary total as the summary statistics with an active filter
whose value is carried by every row — a no-op filter matching all rows
produces the same totals as no filter at all (only the `filtered` indicator
differs, which the spec does not count as part of the totals). -/
theorem c9_noop_filter_same_totals (d : String) (v : Value) (df : DataFrame)
    (h : ∀ r ∈ df.rows, r.lookup d = some v) :
    (get_filtered_summary_stats true (some d) (some v) df).contracts =
        (get_filtered_summary_stats false none none df).contracts ∧
      (get_filtered_summary_stats true (some d) (some v) df).value_m =
        (get_filtered_summary_stats false none none df).value_m := by
  have happ := apply_of_forall_lookup true d v df h
  simp [get_filtered_summary_stats, happ]

/-- Concrete dataframe in which every row carries `risk_level = "High"`. -/
def dfAllHigh : DataFrame :=
  { cols := ["risk_level", "total_value_gbp"],
    rows :=
      [ [("risk_level", Value.str "High"), ("total_value_gbp", Value.num 5000000)],
        [("risk_level", Value.str "High"), ("total_value_gbp", Value.num 3000000)] ] }

/-- Witness for C9 at a concrete dataframe matched by every row. -/
theorem c9_noop_filter_same_totals_witness :
    (∀ r ∈ dfAllHigh.rows, r.lookup "risk_level" = some (Value.str "High")) ∧
      ((get_filtered_summary_stats true (some "risk_level")
            (some (Value.str "High")) dfAllHigh).contracts =
          (get_filtered_summary_stats false none none dfAllHigh).contracts ∧
        (get_filtered_summary_stats true (some "risk_level")
            (some (Value.str "High")) dfAllHigh).value_m =
          (get_filtered_summary_stats false none none dfAllHigh).value_m) :=
  ⟨by decide,
    c9_noop_filter_same_totals "risk_level" (Value.str "High") dfAllHigh (by decide)⟩

/-- C10: whenever the session filter-active flag is false, or the dimension
is falsy (`None` or the empty string), or the value is falsy (`None`, the
empty string or the number 0), the cross-chart filter returns the dataframe
unchanged — so a legitimate filter value that happens to be falsy can never
filter, even when the dimension is recognized and present and the value
occurs in the table. -/
theorem c10_falsy_guard_noop (a : Bool) (ft : Option String) (fv : Option Value)
    (df : DataFrame)
    (h : a = false ∨ optStrTruthy ft = false ∨ optValTruthy fv = false) :
    apply_cross_chart_filter a ft fv df = df := by
  have hg : (!a || !optStrTruthy ft || !optValTruthy fv) = true := by
    rcases h with h | h | h <;> simp [h]
  simp [apply_cross_chart_filter, hg]

/-- Concrete dataframe containing the falsy value 0 in a recognized column,
together with a row that a real filter on 0 would have to drop. -/
def dfZero : DataFrame :=
  { cols := ["risk_level"],
    rows := [[("risk_level", Value.num 0)], [("risk_level", Value.num 1)]] }

/-- Witness for C10: filtering on the value 0 (falsy) with the flag on and
a recognized, present dimension still returns the table unchanged. -/
theorem c10_falsy_guard_noop_witness :
    optValTruthy (some (Value.num 0)) = false ∧
      apply_cross_chart_filter true (some "risk_level") (some (Value.num 0)) dfZero
        = dfZero :=
  ⟨by decide,
    c10_falsy_guard_noop true (some "risk_level") (some (Value.num 0)) dfZero
      (Or.inr (Or.inr (by decide)))⟩
